import Mathlib

/-!
Shallow embedding of `validate_project.py`, the project-scaffolding checker of
the e-commerce retention predictor repository.

The script is a sequential check-runner over the filesystem. We model the
filesystem abstractly as a record of query functions (`isDir`, `isFile`,
`readText`, and `readJson` for the combined open-and-`json.load` effect used on
notebooks). Each checker is translated line-by-line from the Python source into
a function returning the list of observable events (console lines and
filesystem operations, in order) together with its boolean result; `main`
composes the five checkers exactly as the script's `main` does and returns the
process exit code. Python's dynamic semantics for `in`, subscripting and `len`
on JSON values are embedded as `Option`-valued functions (`none` = the
operation raises `TypeError`/`KeyError`, which the script's `except Exception`
handler turns into a `False` result).
-/

set_option autoImplicit false

namespace ValidateProject

/-- A JSON value as produced by Python's `json.load`. -/
inductive JValue where
  | null
  | bool (b : Bool)
  | num (n : Int)
  | str (s : String)
  | arr (elems : List JValue)
  | obj (fields : List (String × JValue))

/-- Outcome of `open(path) ; json.load(f)` on one notebook path: the open/read
itself can raise `OSError`, the content can fail to parse
(`json.JSONDecodeError`), or it parses to a JSON value. -/
inductive ReadResult where
  | ioError
  | parseError
  | parsed (v : JValue)

/-- Abstract filesystem state the script runs against.  `readText p = none`
models `open(p)`/`read()` raising; `readJson` is the combined effect of opening
a notebook and parsing it as JSON. -/
structure FileSystem where
  isDir : String → Bool
  isFile : String → Bool
  readText : String → Option String
  readJson : String → ReadResult

/-- Filesystem operations the script performs.  `writeOp` is any mutating
operation (create/modify/delete); it is part of the operation alphabet so the
read-only claim is a real statement, and the embedding of the script never
emits it because the source calls only `os.path.isdir`, `os.path.isfile` and
`open(..., 'r')`. -/
inductive FSOp where
  | isDirQ (p : String)
  | isFileQ (p : String)
  | openRead (p : String)
  | writeOp (p : String)
  deriving DecidableEq, Repr

/-- One console line printed by the script, with its interpolated data
(headers, per-item success/failure markers, and error classifications; the
free-text of caught exception messages is not modelled). -/
inductive OutLine where
  | header1
  | dirOk (d : String)
  | dirMissing (d : String)
  | fileOk (f : String)
  | fileMissing (f : String)
  | header2
  | nbMissingCells (nb : String)
  | nbOk (nb : String) (cells : Nat)
  | nbInvalidJson (nb : String)
  | nbError (nb : String)
  | header3
  | layerDocOk (layer : String)
  | layerDocMissing (layer : String)
  | modelsDocOk
  | modelsDocMissing
  | header4
  | pkgOk (p : String)
  | pkgMissing (p : String)
  | reqReadError
  | header5
  | patOk (p : String)
  | patWarn (p : String)
  | gitignoreReadError
  | passBanner
  | failBanner
  deriving DecidableEq, Repr

/-- An observable event: a filesystem operation or a printed line, in program
order. -/
inductive Event where
  | fsop (op : FSOp)
  | out (line : OutLine)
  deriving DecidableEq, Repr

/-! ### Python string primitives -/

/-- `leadsWith n h`: the char list `n` is an initial segment of `h`. -/
def leadsWith : List Char → List Char → Bool
  | [], _ => true
  | _ :: _, [] => false
  | a :: as, b :: bs => a == b && leadsWith as bs

/-- `subOf n h`: the char list `n` occurs contiguously inside `h`. -/
def subOf (needle : List Char) : List Char → Bool
  | [] => needle.isEmpty
  | c :: rest => leadsWith needle (c :: rest) || subOf needle rest

/-- Python's `needle in haystack` on strings: substring containment. -/
def strContains (needle haystack : String) : Bool :=
  subOf needle.toList haystack.toList

/-- Python's `str.lower()` (the script's inputs are ASCII). -/
def pyLower (s : String) : String :=
  ⟨s.toList.map Char.toLower⟩

/-! ### Python dynamic semantics on JSON values -/

/-- Python `==` between the string `s` and a JSON value. -/
def isPyStrEq (v : JValue) (s : String) : Bool :=
  match v with
  | .str t => t == s
  | _ => false

/-- Python's `key in content` for a string `key`: key membership for a dict,
substring for a str, element membership for a list; `none` = `TypeError`
(argument not iterable / not a container). -/
def pyInStr (key : String) : JValue → Option Bool
  | .obj kvs => some (kvs.any (fun kv => kv.1 == key))
  | .str s => some (strContains key s)
  | .arr xs => some (xs.any (fun x => isPyStrEq x key))
  | _ => none

/-- Python's `content[key]` for a string `key`: dict lookup (`none` on any
non-dict = `TypeError`; a missing key would be `KeyError`, also `none`). -/
def pyGetItemStr (key : String) : JValue → Option JValue
  | .obj kvs => (kvs.find? (fun kv => kv.1 == key)).map (fun kv => kv.2)
  | _ => none

/-- Python's `len` on a JSON value: defined for str, list and dict; `none` =
`TypeError` on null/bool/number. -/
def pyLen : JValue → Option Nat
  | .str s => some s.length
  | .arr xs => some xs.length
  | .obj kvs => some kvs.length
  | _ => none

/-! ### Static tables from the source -/

/-- `required_dirs` in `validate_project_structure`. -/
def required_dirs : List String :=
  ["data", "data/raw", "data/stage", "data/processed", "notebooks", "models"]

/-- `required_files` in `validate_project_structure`. -/
def required_files : List String :=
  ["README.md", "requirements.txt", ".gitignore",
   "notebooks/01_data_ingestion.ipynb",
   "notebooks/02_data_cleaning.ipynb",
   "notebooks/03_feature_engineering.ipynb",
   "notebooks/04_model_training.ipynb"]

/-- `notebooks` in `validate_notebooks`. -/
def notebooks : List String :=
  ["notebooks/01_data_ingestion.ipynb",
   "notebooks/02_data_cleaning.ipynb",
   "notebooks/03_feature_engineering.ipynb",
   "notebooks/04_model_training.ipynb"]

/-- `expected_data_flow` in `validate_data_pipeline` (the file lists are
documentation context only; the loop uses just the keys, in insertion order). -/
def expected_data_flow : List (String × List String) :=
  [("raw", ["customers.csv", "products.csv", "transactions.csv"]),
   ("stage", ["cleaned_customers.csv", "cleaned_products.csv",
              "cleaned_transactions.csv", "data_quality_summary.json"]),
   ("processed", ["customer_features.csv", "training_data.csv", "X_features.csv",
                  "y_target.csv", "label_encoders.pkl",
                  "feature_engineering_summary.json"])]

/-- `model_artifacts` in `validate_data_pipeline` (declared by the source and
never tested for existence). -/
def model_artifacts : List String :=
  ["retention_model.h5", "scaler.pkl", "feature_importance.csv",
   "model_metadata.json", "training_history.csv"]

/-- `essential_packages` in `validate_requirements`. -/
def essential_packages : List String :=
  ["pandas", "numpy", "tensorflow", "scikit-learn",
   "matplotlib", "seaborn", "faker", "jupyter"]

/-- `essential_patterns` in `validate_gitignore`. -/
def essential_patterns : List String :=
  ["__pycache__", "*.pyc", ".ipynb_checkpoints",
   "data/raw/*.csv", "models/", ".env"]

/-! ### The checkers -/

/-- The `for dir_path in required_dirs` loop of `validate_project_structure`:
prints one line per directory and returns `False` at the first miss. -/
def checkDirsLoop (fs : FileSystem) : List String → List Event × Bool
  | [] => ([], true)
  | d :: rest =>
    if fs.isDir d then
      let r := checkDirsLoop fs rest
      (Event.fsop (.isDirQ d) :: Event.out (.dirOk d) :: r.1, r.2)
    else
      ([Event.fsop (.isDirQ d), Event.out (.dirMissing d)], false)

/-- The `for file_path in required_files` loop of `validate_project_structure`. -/
def checkFilesLoop (fs : FileSystem) : List String → List Event × Bool
  | [] => ([], true)
  | f :: rest =>
    if fs.isFile f then
      let r := checkFilesLoop fs rest
      (Event.fsop (.isFileQ f) :: Event.out (.fileOk f) :: r.1, r.2)
    else
      ([Event.fsop (.isFileQ f), Event.out (.fileMissing f)], false)

/-- `validate_project_structure`: all required directories first, then all
required files; returns `False` immediately on the first missing item. -/
def validate_project_structure (fs : FileSystem) : List Event × Bool :=
  let rd := checkDirsLoop fs required_dirs
  if rd.2 then
    let rf := checkFilesLoop fs required_files
    (Event.out .header1 :: (rd.1 ++ rf.1), rf.2)
  else
    (Event.out .header1 :: rd.1, false)

/-- One iteration of the `for notebook in notebooks` loop of
`validate_notebooks`: open/parse, test `'cells' not in content`, then
`len(content['cells'])`; every raised exception is caught locally and turns
into `(…, false)`. -/
def checkNotebookStep (fs : FileSystem) (nb : String) : List Event × Bool :=
  match fs.readJson nb with
  | .ioError => ([Event.fsop (.openRead nb), Event.out (.nbError nb)], false)
  | .parseError => ([Event.fsop (.openRead nb), Event.out (.nbInvalidJson nb)], false)
  | .parsed content =>
    match pyInStr "cells" content with
    | none => ([Event.fsop (.openRead nb), Event.out (.nbError nb)], false)
    | some false => ([Event.fsop (.openRead nb), Event.out (.nbMissingCells nb)], false)
    | some true =>
      match pyGetItemStr "cells" content with
      | none => ([Event.fsop (.openRead nb), Event.out (.nbError nb)], false)
      | some v =>
        match pyLen v with
        | none => ([Event.fsop (.openRead nb), Event.out (.nbError nb)], false)
        | some n => ([Event.fsop (.openRead nb), Event.out (.nbOk nb n)], true)

/-- The `for notebook in notebooks` loop: `return False` inside the loop stops
at the first failing notebook. -/
def notebooksLoop (fs : FileSystem) : List String → List Event × Bool
  | [] => ([], true)
  | nb :: rest =>
    let s := checkNotebookStep fs nb
    if s.2 then
      let r := notebooksLoop fs rest
      (s.1 ++ r.1, r.2)
    else
      (s.1, false)

/-- `validate_notebooks`. -/
def validate_notebooks (fs : FileSystem) : List Event × Bool :=
  let r := notebooksLoop fs notebooks
  (Event.out .header2 :: r.1, r.2)

/-- The `for layer, expected_files in expected_data_flow.items()` loop of
`validate_data_pipeline`: prints a line per layer, never affects the result. -/
def pipelineLoop (fs : FileSystem) : List (String × List String) → List Event
  | [] => []
  | (layer, _) :: rest =>
    Event.fsop (.isFileQ ("data/" ++ layer ++ "/README.md")) ::
    Event.out (if fs.isFile ("data/" ++ layer ++ "/README.md") then
                 .layerDocOk layer else .layerDocMissing layer) ::
    pipelineLoop fs rest

/-- `validate_data_pipeline`: reports per-layer and models documentation but
ends in an unconditional `return True`. -/
def validate_data_pipeline (fs : FileSystem) : List Event × Bool :=
  (Event.out .header3 :: pipelineLoop fs expected_data_flow ++
     [Event.fsop (.isFileQ "models/README.md"),
      Event.out (if fs.isFile "models/README.md" then .modelsDocOk else .modelsDocMissing)],
   true)

/-- The `for package in essential_packages` loop of `validate_requirements`:
case-insensitive substring test against the manifest text, `return False` on
the first miss. -/
def reqLoop (requirements : String) : List String → List Event × Bool
  | [] => ([], true)
  | p :: rest =>
    if strContains p (pyLower requirements) then
      let r := reqLoop requirements rest
      (Event.out (.pkgOk p) :: r.1, r.2)
    else
      ([Event.out (.pkgMissing p)], false)

/-- `validate_requirements`: reads `requirements.txt` (any exception while
reading is caught and yields `False`), then runs the package loop. -/
def validate_requirements (fs : FileSystem) : List Event × Bool :=
  match fs.readText "requirements.txt" with
  | none =>
    ([Event.out .header4, Event.fsop (.openRead "requirements.txt"),
      Event.out .reqReadError], false)
  | some requirements =>
    let r := reqLoop requirements essential_packages
    (Event.out .header4 :: Event.fsop (.openRead "requirements.txt") :: r.1, r.2)

/-- The `for pattern in essential_patterns` loop of `validate_gitignore`:
case-sensitive substring test, a warning line on a miss, never returns early. -/
def gitignoreLoop (gitignore : String) : List String → List Event
  | [] => []
  | p :: rest =>
    Event.out (if strContains p gitignore then .patOk p else .patWarn p) ::
    gitignoreLoop gitignore rest

/-- `validate_gitignore`: reads `.gitignore` (any exception yields `False`),
then warns about missing patterns and returns `True`. -/
def validate_gitignore (fs : FileSystem) : List Event × Bool :=
  match fs.readText ".gitignore" with
  | none =>
    ([Event.out .header5, Event.fsop (.openRead ".gitignore"),
      Event.out .gitignoreReadError], false)
  | some gitignore =>
    (Event.out .header5 :: Event.fsop (.openRead ".gitignore") ::
       gitignoreLoop gitignore essential_patterns, true)

/-- `main`: runs the five checkers in order (all of them, with no
short-circuit across checkers), ANDs the results, prints the final banner and
returns the process exit code (`sys.exit(main())`). -/
def main (fs : FileSystem) : List Event × Nat :=
  let r1 := validate_project_structure fs
  let r2 := validate_notebooks fs
  let r3 := validate_data_pipeline fs
  let r4 := validate_requirements fs
  let r5 := validate_gitignore fs
  let allPassed := r1.2 && r2.2 && r3.2 && r4.2 && r5.2
  (r1.1 ++ r2.1 ++ r3.1 ++ r4.1 ++ r5.1 ++
     [Event.out (if allPassed then .passBanner else .failBanner)],
   if allPassed then 0 else 1)

/-! ### Boolean characterizations of the checkers -/

theorem checkDirsLoop_snd (fs : FileSystem) (l : List String) :
    (checkDirsLoop fs l).2 = l.all fs.isDir := by
  induction l with
  | nil => rfl
  | cons d rest ih => cases h : fs.isDir d <;> simp [checkDirsLoop, h, ih]

theorem checkFilesLoop_snd (fs : FileSystem) (l : List String) :
    (checkFilesLoop fs l).2 = l.all fs.isFile := by
  induction l with
  | nil => rfl
  | cons f rest ih => cases h : fs.isFile f <;> simp [checkFilesLoop, h, ih]

theorem validate_project_structure_snd (fs : FileSystem) :
    (validate_project_structure fs).2
      = (required_dirs.all fs.isDir && required_files.all fs.isFile) := by
  rw [← checkDirsLoop_snd fs required_dirs, ← checkFilesLoop_snd fs required_files,
    validate_project_structure]
  cases h : (checkDirsLoop fs required_dirs).2 <;> simp [h]

/-- Whether one parsed notebook value passes the `'cells' in content` /
`len(content['cells'])` sequence without raising. -/
def cellsLenOk (v : JValue) : Bool :=
  match pyGetItemStr "cells" v with
  | some c => (pyLen c).isSome
  | none => false

/-- The overall per-notebook success predicate of `validate_notebooks`. -/
def notebookOk (fs : FileSystem) (nb : String) : Bool :=
  match fs.readJson nb with
  | .parsed v => cellsLenOk v
  | _ => false

theorem checkNotebookStep_snd (fs : FileSystem) (nb : String) :
    (checkNotebookStep fs nb).2 = notebookOk fs nb := by
  rw [notebookOk]
  cases hr : fs.readJson nb with
  | ioError => simp [checkNotebookStep, hr]
  | parseError => simp [checkNotebookStep, hr]
  | parsed v =>
    cases v with
    | null => simp [checkNotebookStep, hr, pyInStr, cellsLenOk, pyGetItemStr]
    | bool b => simp [checkNotebookStep, hr, pyInStr, cellsLenOk, pyGetItemStr]
    | num n => simp [checkNotebookStep, hr, pyInStr, cellsLenOk, pyGetItemStr]
    | str s =>
      cases hc : strContains "cells" s <;>
        simp [checkNotebookStep, hr, pyInStr, hc, cellsLenOk, pyGetItemStr]
    | arr xs =>
      cases hc : xs.any (fun x => isPyStrEq x "cells") <;>
        simp [checkNotebookStep, hr, pyInStr, hc, cellsLenOk, pyGetItemStr]
    | obj kvs =>
      cases hc : kvs.any (fun kv => kv.1 == "cells") with
      | false =>
        have hf : kvs.find? (fun kv => kv.1 == "cells") = none := by
          rw [List.find?_eq_none]
          intro x hx hpx
          have : kvs.any (fun kv => kv.1 == "cells") = true :=
            List.any_eq_true.mpr ⟨x, hx, hpx⟩
          rw [hc] at this
          exact Bool.false_ne_true this
        simp [checkNotebookStep, hr, pyInStr, hc, cellsLenOk, pyGetItemStr, hf]
      | true =>
        obtain ⟨kv, hmem, hkv⟩ := List.any_eq_true.mp hc
        have hs : (kvs.find? (fun kv => kv.1 == "cells")).isSome :=
          List.find?_isSome.mpr ⟨kv, hmem, hkv⟩
        cases hf : kvs.find? (fun kv => kv.1 == "cells") with
        | none => rw [hf] at hs; simp at hs
        | some kv0 =>
          cases hl : pyLen kv0.2 <;>
            simp [checkNotebookStep, hr, pyInStr, hc, cellsLenOk, pyGetItemStr, hf, hl]

theorem notebooksLoop_snd (fs : FileSystem) (l : List String) :
    (notebooksLoop fs l).2 = l.all (notebookOk fs) := by
  induction l with
  | nil => rfl
  | cons nb rest ih =>
    have h2 := checkNotebookStep_snd fs nb
    cases h : (checkNotebookStep fs nb).2 <;>
      rw [h] at h2 <;> simp [notebooksLoop, h, ih, ← h2]

theorem validate_notebooks_snd (fs : FileSystem) :
    (validate_notebooks fs).2 = notebooks.all (notebookOk fs) :=
  notebooksLoop_snd fs notebooks

theorem validate_data_pipeline_snd (fs : FileSystem) :
    (validate_data_pipeline fs).2 = true := rfl

theorem reqLoop_snd (text : String) (l : List String) :
    (reqLoop text l).2 = l.all (fun p => strContains p (pyLower text)) := by
  induction l with
  | nil => rfl
  | cons p rest ih =>
    cases h : strContains p (pyLower text) <;> simp [reqLoop, h, ih]

theorem validate_requirements_snd (fs : FileSystem) :
    (validate_requirements fs).2 =
      match fs.readText "requirements.txt" with
      | some t => essential_packages.all (fun p => strContains p (pyLower t))
      | none => false := by
  cases h : fs.readText "requirements.txt" <;>
    simp [validate_requirements, h, reqLoop_snd]

theorem validate_gitignore_snd (fs : FileSystem) :
    (validate_gitignore fs).2 = (fs.readText ".gitignore").isSome := by
  cases h : fs.readText ".gitignore" <;> simp [validate_gitignore, h]

theorem main_snd (fs : FileSystem) :
    (main fs).2 =
      if ((validate_project_structure fs).2 && (validate_notebooks fs).2 &&
          (validate_data_pipeline fs).2 && (validate_requirements fs).2 &&
          (validate_gitignore fs).2)
      then 0 else 1 := rfl

/-! ### Trace characterizations -/

/-- Events printed for a run of successfully found directories. -/
def dirOkTrace : List String → List Event
  | [] => []
  | d :: rest => Event.fsop (.isDirQ d) :: Event.out (.dirOk d) :: dirOkTrace rest

/-- Events printed for a run of successfully found files. -/
def fileOkTrace : List String → List Event
  | [] => []
  | f :: rest => Event.fsop (.isFileQ f) :: Event.out (.fileOk f) :: fileOkTrace rest

/-- Events printed for a run of packages found in the manifest. -/
def pkgOkTrace : List String → List Event
  | [] => []
  | p :: rest => Event.out (.pkgOk p) :: pkgOkTrace rest

/-- Events printed for a run of notebooks that all parse with `"cells": []`. -/
def nbOk0Trace : List String → List Event
  | [] => []
  | nb :: rest => Event.fsop (.openRead nb) :: Event.out (.nbOk nb 0) :: nbOk0Trace rest

/-- Per-pattern gitignore lines: a success marker or a warning. -/
def gitignorePatTrace (g : String) (pats : List String) : List Event :=
  pats.map (fun p => Event.out (if strContains p g then .patOk p else .patWarn p))

theorem checkDirsLoop_allOk (fs : FileSystem) (l : List String)
    (h : ∀ d ∈ l, fs.isDir d = true) :
    checkDirsLoop fs l = (dirOkTrace l, true) := by
  induction l with
  | nil => rfl
  | cons d rest ih =>
    have hd : fs.isDir d = true := h d (by simp)
    simp [checkDirsLoop, hd, dirOkTrace, ih (fun x hx => h x (by simp [hx]))]

theorem checkDirsLoop_firstMiss (fs : FileSystem) (pre : List String) (d : String)
    (post : List String) (hpre : ∀ x ∈ pre, fs.isDir x = true) (hd : fs.isDir d = false) :
    checkDirsLoop fs (pre ++ d :: post)
      = (dirOkTrace pre ++ [Event.fsop (.isDirQ d), Event.out (.dirMissing d)], false) := by
  induction pre with
  | nil => simp [checkDirsLoop, hd, dirOkTrace]
  | cons x rest ih =>
    have hx : fs.isDir x = true := hpre x (by simp)
    simp [checkDirsLoop, hx, dirOkTrace, ih (fun y hy => hpre y (by simp [hy]))]

theorem checkFilesLoop_allOk (fs : FileSystem) (l : List String)
    (h : ∀ f ∈ l, fs.isFile f = true) :
    checkFilesLoop fs l = (fileOkTrace l, true) := by
  induction l with
  | nil => rfl
  | cons f rest ih =>
    have hf : fs.isFile f = true := h f (by simp)
    simp [checkFilesLoop, hf, fileOkTrace, ih (fun x hx => h x (by simp [hx]))]

theorem checkFilesLoop_firstMiss (fs : FileSystem) (pre : List String) (f : String)
    (post : List String) (hpre : ∀ x ∈ pre, fs.isFile x = true) (hf : fs.isFile f = false) :
    checkFilesLoop fs (pre ++ f :: post)
      = (fileOkTrace pre ++ [Event.fsop (.isFileQ f), Event.out (.fileMissing f)], false) := by
  induction pre with
  | nil => simp [checkFilesLoop, hf, fileOkTrace]
  | cons x rest ih =>
    have hx : fs.isFile x = true := hpre x (by simp)
    simp [checkFilesLoop, hx, fileOkTrace, ih (fun y hy => hpre y (by simp [hy]))]

theorem validate_project_structure_dirMiss (fs : FileSystem) (pre : List String)
    (d : String) (post : List String) (hsplit : required_dirs = pre ++ d :: post)
    (hpre : ∀ x ∈ pre, fs.isDir x = true) (hd : fs.isDir d = false) :
    validate_project_structure fs
      = (Event.out .header1 ::
          (dirOkTrace pre ++ [Event.fsop (.isDirQ d), Event.out (.dirMissing d)]), false) := by
  simp [validate_project_structure, hsplit,
    checkDirsLoop_firstMiss fs pre d post hpre hd]

theorem validate_project_structure_fileMiss (fs : FileSystem) (pre : List String)
    (f : String) (post : List String) (hsplit : required_files = pre ++ f :: post)
    (hdirs : ∀ x ∈ required_dirs, fs.isDir x = true)
    (hpre : ∀ x ∈ pre, fs.isFile x = true) (hf : fs.isFile f = false) :
    validate_project_structure fs
      = (Event.out .header1 ::
          (dirOkTrace required_dirs ++
            (fileOkTrace pre ++ [Event.fsop (.isFileQ f), Event.out (.fileMissing f)])),
         false) := by
  simp [validate_project_structure, checkDirsLoop_allOk fs required_dirs hdirs, hsplit,
    checkFilesLoop_firstMiss fs pre f post hpre hf]

theorem checkNotebookStep_empty (fs : FileSystem) (nb : String)
    (h : fs.readJson nb = .parsed (.obj [("cells", .arr [])])) :
    checkNotebookStep fs nb = ([Event.fsop (.openRead nb), Event.out (.nbOk nb 0)], true) := by
  unfold checkNotebookStep
  rw [h]
  rfl

theorem notebooksLoop_allEmpty (fs : FileSystem) (l : List String)
    (h : ∀ nb ∈ l, fs.readJson nb = .parsed (.obj [("cells", .arr [])])) :
    notebooksLoop fs l = (nbOk0Trace l, true) := by
  induction l with
  | nil => rfl
  | cons nb rest ih =>
    have hnb := checkNotebookStep_empty fs nb (h nb (by simp))
    simp [notebooksLoop, hnb, nbOk0Trace, ih (fun x hx => h x (by simp [hx]))]

theorem reqLoop_allOk (text : String) (l : List String)
    (h : ∀ p ∈ l, strContains p (pyLower text) = true) :
    reqLoop text l = (pkgOkTrace l, true) := by
  induction l with
  | nil => rfl
  | cons p rest ih =>
    have hp : strContains p (pyLower text) = true := h p (by simp)
    simp [reqLoop, hp, pkgOkTrace, ih (fun x hx => h x (by simp [hx]))]

theorem reqLoop_firstMiss (text : String) (pre : List String) (p : String)
    (post : List String) (hpre : ∀ q ∈ pre, strContains q (pyLower text) = true)
    (hp : strContains p (pyLower text) = false) :
    reqLoop text (pre ++ p :: post)
      = (pkgOkTrace pre ++ [Event.out (.pkgMissing p)], false) := by
  induction pre with
  | nil => simp [reqLoop, hp, pkgOkTrace]
  | cons x rest ih =>
    have hx : strContains x (pyLower text) = true := hpre x (by simp)
    simp [reqLoop, hx, pkgOkTrace, ih (fun y hy => hpre y (by simp [hy]))]

theorem validate_requirements_firstMiss (fs : FileSystem) (text : String)
    (pre : List String) (p : String) (post : List String)
    (h : fs.readText "requirements.txt" = some text)
    (hsplit : essential_packages = pre ++ p :: post)
    (hpre : ∀ q ∈ pre, strContains q (pyLower text) = true)
    (hp : strContains p (pyLower text) = false) :
    validate_requirements fs
      = (Event.out .header4 :: Event.fsop (.openRead "requirements.txt") ::
          (pkgOkTrace pre ++ [Event.out (.pkgMissing p)]), false) := by
  simp [validate_requirements, h, hsplit, reqLoop_firstMiss text pre p post hpre hp]

theorem gitignoreLoop_eq_map (g : String) (pats : List String) :
    gitignoreLoop g pats = gitignorePatTrace g pats := by
  induction pats with
  | nil => rfl
  | cons p rest ih => simp [gitignoreLoop, gitignorePatTrace, ih]

/-! ### Read-only effect analysis -/

/-- Whether an event is a mutating filesystem operation. -/
def eventIsWrite : Event → Bool
  | .fsop (.writeOp _) => true
  | _ => false

/-- `readOnly evs`: no event in `evs` mutates the filesystem. -/
def readOnly (evs : List Event) : Bool :=
  evs.all (fun e => !eventIsWrite e)

@[simp] theorem eventIsWrite_out (line : OutLine) :
    eventIsWrite (Event.out line) = false := rfl

@[simp] theorem eventIsWrite_isDirQ (p : String) :
    eventIsWrite (Event.fsop (.isDirQ p)) = false := rfl

@[simp] theorem eventIsWrite_isFileQ (p : String) :
    eventIsWrite (Event.fsop (.isFileQ p)) = false := rfl

@[simp] theorem eventIsWrite_openRead (p : String) :
    eventIsWrite (Event.fsop (.openRead p)) = false := rfl

@[simp] theorem readOnly_nil : readOnly [] = true := rfl

@[simp] theorem readOnly_cons (e : Event) (evs : List Event) :
    readOnly (e :: evs) = (!eventIsWrite e && readOnly evs) := by
  simp [readOnly]

@[simp] theorem readOnly_append (a b : List Event) :
    readOnly (a ++ b) = (readOnly a && readOnly b) := by
  simp [readOnly]

theorem checkDirsLoop_readOnly (fs : FileSystem) (l : List String) :
    readOnly (checkDirsLoop fs l).1 = true := by
  induction l with
  | nil => rfl
  | cons d rest ih => cases h : fs.isDir d <;> simp [checkDirsLoop, h, ih]

theorem checkFilesLoop_readOnly (fs : FileSystem) (l : List String) :
    readOnly (checkFilesLoop fs l).1 = true := by
  induction l with
  | nil => rfl
  | cons f rest ih => cases h : fs.isFile f <;> simp [checkFilesLoop, h, ih]

theorem validate_project_structure_readOnly (fs : FileSystem) :
    readOnly (validate_project_structure fs).1 = true := by
  cases h : (checkDirsLoop fs required_dirs).2 <;>
    simp [validate_project_structure, h, checkDirsLoop_readOnly, checkFilesLoop_readOnly]

theorem checkNotebookStep_shape (fs : FileSystem) (nb : String) :
    ∃ line b, checkNotebookStep fs nb = ([Event.fsop (.openRead nb), Event.out line], b) := by
  unfold checkNotebookStep
  repeat' split
  all_goals exact ⟨_, _, rfl⟩

theorem notebooksLoop_readOnly (fs : FileSystem) (l : List String) :
    readOnly (notebooksLoop fs l).1 = true := by
  induction l with
  | nil => rfl
  | cons nb rest ih =>
    obtain ⟨line, b, hs⟩ := checkNotebookStep_shape fs nb
    cases b <;> simp [notebooksLoop, hs, ih]

theorem validate_notebooks_readOnly (fs : FileSystem) :
    readOnly (validate_notebooks fs).1 = true := by
  simp [validate_notebooks, notebooksLoop_readOnly]

theorem pipelineLoop_readOnly (fs : FileSystem) (l : List (String × List String)) :
    readOnly (pipelineLoop fs l) = true := by
  induction l with
  | nil => rfl
  | cons x rest ih => simp [pipelineLoop, ih]

theorem validate_data_pipeline_readOnly (fs : FileSystem) :
    readOnly (validate_data_pipeline fs).1 = true := by
  simp [validate_data_pipeline, pipelineLoop_readOnly]

theorem reqLoop_readOnly (text : String) (l : List String) :
    readOnly (reqLoop text l).1 = true := by
  induction l with
  | nil => rfl
  | cons p rest ih =>
    cases h : strContains p (pyLower text) <;> simp [reqLoop, h, ih]

theorem validate_requirements_readOnly (fs : FileSystem) :
    readOnly (validate_requirements fs).1 = true := by
  cases h : fs.readText "requirements.txt" <;>
    simp [validate_requirements, h, reqLoop_readOnly]

theorem gitignoreLoop_readOnly (g : String) (l : List String) :
    readOnly (gitignoreLoop g l) = true := by
  induction l with
  | nil => rfl
  | cons p rest ih => simp [gitignoreLoop, ih]

theorem validate_gitignore_readOnly (fs : FileSystem) :
    readOnly (validate_gitignore fs).1 = true := by
  cases h : fs.readText ".gitignore" <;>
    simp [validate_gitignore, h, gitignoreLoop_readOnly]

theorem main_readOnly (fs : FileSystem) :
    readOnly (main fs).1 = true := by
  simp [main, validate_project_structure_readOnly, validate_notebooks_readOnly,
    validate_data_pipeline_readOnly, validate_requirements_readOnly,
    validate_gitignore_readOnly]

/-! ### Further helper lemmas -/

theorem find?_eq_none_of_any_eq_false {α : Type} (p : α → Bool) (l : List α)
    (h : l.any p = false) : l.find? p = none := by
  rw [List.find?_eq_none]
  intro x hx hpx
  have hy : l.any p = true := List.any_eq_true.mpr ⟨x, hx, hpx⟩
  rw [h] at hy
  exact Bool.false_ne_true hy

theorem notebookOk_false_all (fs : FileSystem) (nb : String) (hmem : nb ∈ notebooks)
    (h : notebookOk fs nb = false) : (validate_notebooks fs).2 = false := by
  rw [validate_notebooks_snd, List.all_eq_false]
  exact ⟨nb, hmem, by simp [h]⟩

/-! ### Definitions taken from the claims' words, for comparison with the code -/

/-- From the words of the spec and claim C3: the notebook file can be read and
parsed as valid JSON containing a `"cells"` key (a key is a field of a JSON
object).  Written from the claim, not from the source, to be compared against
`validate_notebooks`. -/
def notebookHasCellsKeyClaim (fs : FileSystem) (nb : String) : Bool :=
  match fs.readJson nb with
  | .parsed (.obj kvs) => kvs.any (fun kv => kv.1 == "cells")
  | _ => false

/-- From the words of claim C10: the parsed top-level value is an object with a
list-valued `"cells"` entry.  Written from the claim, not from the source. -/
def objWithListCellsClaim : JValue → Bool
  | .obj kvs =>
    match kvs.find? (fun kv => kv.1 == "cells") with
    | some kv =>
      match kv.2 with
      | .arr _ => true
      | _ => false
    | none => false
  | _ => false

/-! ### Concrete filesystem states used as witnesses and counterexamples -/

/-- A manifest text containing all eight required package names. -/
def goodText : String :=
  "pandas numpy tensorflow scikit-learn matplotlib seaborn faker jupyter"

/-- A fully healthy project layout: every path exists, every text file reads
as `goodText`, every notebook parses as `{"cells": []}`. -/
def fsGood : FileSystem :=
  { isDir := fun _ => true
    isFile := fun _ => true
    readText := fun _ => some goodText
    readJson := fun _ => .parsed (.obj [("cells", .arr [])]) }

/-- Same layout with the `data/stage` directory removed. -/
def fsMissingStage : FileSystem :=
  { fsGood with isDir := fun d => !(d == "data/stage") }

/-- Same layout, but every notebook parses as `{"cells": null}`: valid JSON
with a `"cells"` key whose value supports no length computation. -/
def fsCellsNull : FileSystem :=
  { fsGood with readJson := fun _ => .parsed (.obj [("cells", .null)]) }

/-- Same layout, but every notebook parses as `{"cells": "ab"}`: the `"cells"`
value is a string, not a list. -/
def fsCellsStr : FileSystem :=
  { fsGood with readJson := fun _ => .parsed (.obj [("cells", .str "ab")]) }

/-- A manifest missing exactly `tensorflow` (and everything after it present). -/
def manifestNoTF : String :=
  "pandas numpy scikit-learn matplotlib seaborn faker jupyter"

/-- Healthy layout whose `requirements.txt` reads as `manifestNoTF`. -/
def fsNoTF : FileSystem :=
  { fsGood with readText := fun _ => some manifestNoTF }

/-- Healthy layout where every notebook open/read raises. -/
def fsNbIoErr : FileSystem :=
  { fsGood with readJson := fun _ => .ioError }

/-- The lines of a manifest where `numpy` occurs only inside the longer token
`numpydoc`, and the other seven package names occur only inside a comment
line. -/
def manifestLines : List String :=
  ["numpydoc", "# pandas tensorflow scikit-learn matplotlib seaborn faker jupyter"]

/-- The manifest text joined from `manifestLines`. -/
def manifestNumpydoc : String :=
  String.intercalate "\n" manifestLines

/-- Healthy layout whose `requirements.txt` reads as `manifestNumpydoc`. -/
def fsNumpydoc : FileSystem :=
  { fsGood with readText := fun _ => some manifestNumpydoc }

/-! ### The claims -/

/-- C1: for every filesystem state, the process exit status is 0 iff all five
checkers individually return true; and since the pipeline checker is
constantly true and the gitignore checker is true exactly when `.gitignore` is
readable, the exit status is equivalently determined by the structure,
notebook and requirements checkers together with `.gitignore` readability. -/
theorem claim_C1_exit_status (fs : FileSystem) :
    ((main fs).2 = 0 ↔
      ((validate_project_structure fs).2 = true ∧ (validate_notebooks fs).2 = true ∧
       (validate_data_pipeline fs).2 = true ∧ (validate_requirements fs).2 = true ∧
       (validate_gitignore fs).2 = true))
  ∧ ((main fs).2 = 0 ↔
      ((validate_project_structure fs).2 = true ∧ (validate_notebooks fs).2 = true ∧
       (validate_requirements fs).2 = true ∧ (fs.readText ".gitignore").isSome = true)) := by
  rw [main_snd, validate_data_pipeline_snd, validate_gitignore_snd]
  cases h1 : (validate_project_structure fs).2 <;>
    cases h2 : (validate_notebooks fs).2 <;>
    cases h4 : (validate_requirements fs).2 <;>
    cases hg : fs.readText ".gitignore" <;>
    simp [h1, h2, h4, hg, validate_gitignore_snd]

/-- C2: the structure checker returns true iff all 6 required directories and
all 7 required files are present; any single missing item forces false; and
the checker stops at the first missing directory (directories before files) or
the first missing file, as witnessed by its exact event trace. -/
theorem claim_C2_structure (fs : FileSystem) :
    ((validate_project_structure fs).2 = true ↔
      ((∀ d ∈ required_dirs, fs.isDir d = true) ∧ (∀ f ∈ required_files, fs.isFile f = true)))
  ∧ (∀ d ∈ required_dirs, fs.isDir d = false → (validate_project_structure fs).2 = false)
  ∧ (∀ f ∈ required_files, fs.isFile f = false → (validate_project_structure fs).2 = false)
  ∧ (∀ pre d post, required_dirs = pre ++ d :: post → (∀ x ∈ pre, fs.isDir x = true) →
      fs.isDir d = false →
      validate_project_structure fs
        = (Event.out .header1 ::
            (dirOkTrace pre ++ [Event.fsop (.isDirQ d), Event.out (.dirMissing d)]), false))
  ∧ (∀ pre f post, required_files = pre ++ f :: post →
      (∀ x ∈ required_dirs, fs.isDir x = true) → (∀ x ∈ pre, fs.isFile x = true) →
      fs.isFile f = false →
      validate_project_structure fs
        = (Event.out .header1 ::
            (dirOkTrace required_dirs ++
              (fileOkTrace pre ++ [Event.fsop (.isFileQ f), Event.out (.fileMissing f)])),
           false)) := by
  refine ⟨?_, ?_, ?_, ?_, ?_⟩
  · rw [validate_project_structure_snd]
    simp
  · intro d hd hmiss
    rw [validate_project_structure_snd]
    have : required_dirs.all fs.isDir = false :=
      List.all_eq_false.mpr ⟨d, hd, by simp [hmiss]⟩
    simp [this]
  · intro f hf hmiss
    rw [validate_project_structure_snd]
    have : required_files.all fs.isFile = false :=
      List.all_eq_false.mpr ⟨f, hf, by simp [hmiss]⟩
    simp [this]
  · intro pre d post h1 h2 h3
    exact validate_project_structure_dirMiss fs pre d post h1 h2 h3
  · intro pre f post h1 h2 h3 h4
    exact validate_project_structure_fileMiss fs pre f post h1 h2 h3 h4

/-- C2 witness: on a fully present layout the structure checker succeeds, and
removing `data/stage` makes it fail right after reporting `data` and
`data/raw`, with no file ever checked. -/
theorem claim_C2_structure_witness :
    (validate_project_structure fsGood).2 = true
  ∧ validate_project_structure fsMissingStage
      = (Event.out .header1 ::
          (dirOkTrace ["data", "data/raw"] ++
            [Event.fsop (.isDirQ "data/stage"), Event.out (.dirMissing "data/stage")]),
         false) :=
  ⟨(claim_C2_structure fsGood).1.mpr (by decide),
   (claim_C2_structure fsMissingStage).2.2.2.1 ["data", "data/raw"] "data/stage"
     ["data/processed", "notebooks", "models"] rfl (by decide) (by decide)⟩

/-- C3 counterexample: a notebook parsing as `{"cells": null}` is valid JSON
containing a `"cells"` key, yet the notebook checker returns false (the `len`
computation raises), so the claimed equivalence is false at this state. -/
theorem claim_C3_counterexample :
    ¬ (((validate_notebooks fsCellsNull).2 = true) ↔
        notebooks.all (notebookHasCellsKeyClaim fsCellsNull) = true) := by
  decide

/-- C3 (amended): the notebook checker returns true iff each of the four named
files reads and parses as valid JSON whose `"cells"` lookup and length
computation succeed (an object with a `"cells"` entry whose value is a string,
array or object); invalid JSON forces false, a parsed object lacking a
`"cells"` key forces false, and when all four notebooks parse as
`{"cells": []}` the checker passes reporting a count of 0 for each. -/
theorem claim_C3_notebooks (fs : FileSystem) :
    ((validate_notebooks fs).2 = true ↔ notebooks.all (notebookOk fs) = true)
  ∧ (∀ nb ∈ notebooks, fs.readJson nb = .parseError → (validate_notebooks fs).2 = false)
  ∧ (∀ nb ∈ notebooks, ∀ kvs, fs.readJson nb = .parsed (.obj kvs) →
      kvs.any (fun kv => kv.1 == "cells") = false → (validate_notebooks fs).2 = false)
  ∧ ((∀ nb ∈ notebooks, fs.readJson nb = .parsed (.obj [("cells", .arr [])])) →
      validate_notebooks fs = (Event.out .header2 :: nbOk0Trace notebooks, true)) := by
  refine ⟨?_, ?_, ?_, ?_⟩
  · rw [validate_notebooks_snd]
  · intro nb hmem hp
    exact notebookOk_false_all fs nb hmem (by simp [notebookOk, hp])
  · intro nb hmem kvs hp hany
    refine notebookOk_false_all fs nb hmem ?_
    simp [notebookOk, hp, cellsLenOk, pyGetItemStr,
      find?_eq_none_of_any_eq_false _ _ hany]
  · intro hall
    simp [validate_notebooks, notebooksLoop_allEmpty fs notebooks hall]

/-- C3 witness: on the healthy layout where each notebook is `{"cells": []}`,
the checker passes and reports 0 cells for each of the four notebooks. -/
theorem claim_C3_notebooks_witness :
    validate_notebooks fsGood = (Event.out .header2 :: nbOk0Trace notebooks, true) :=
  (claim_C3_notebooks fsGood).2.2.2 (fun _ _ => rfl)

/-- C4: the pipeline layout checker returns true on every filesystem state;
its per-item reports never reach the boolean result. -/
theorem claim_C4_pipeline_always_true (fs : FileSystem) :
    (validate_data_pipeline fs).2 = true := rfl

/-- C5: on a readable manifest, the requirements checker returns true iff each
of the eight package names occurs case-insensitively in the manifest text, and
when a package is missing the checker stops at the first missing one in
iteration order: the trace shows success lines for the earlier packages, the
one failure line, and nothing afterwards. -/
theorem claim_C5_requirements (fs : FileSystem) (text : String)
    (h : fs.readText "requirements.txt" = some text) :
    ((validate_requirements fs).2 = true ↔
      ∀ p ∈ essential_packages, strContains p (pyLower text) = true)
  ∧ (∀ pre p post, essential_packages = pre ++ p :: post →
      (∀ q ∈ pre, strContains q (pyLower text) = true) →
      strContains p (pyLower text) = false →
      validate_requirements fs
        = (Event.out .header4 :: Event.fsop (.openRead "requirements.txt") ::
            (pkgOkTrace pre ++ [Event.out (.pkgMissing p)]), false)) := by
  constructor
  · rw [validate_requirements_snd, h]
    simp
  · intro pre p post h1 h2 h3
    exact validate_requirements_firstMiss fs text pre p post h h1 h2 h3

/-- C5 witness: a manifest missing exactly `tensorflow` makes the checker
report `pandas` and `numpy` as found, report `tensorflow` as the missing
package, and stop — the later packages are not reported. -/
theorem claim_C5_requirements_witness :
    validate_requirements fsNoTF
      = (Event.out .header4 :: Event.fsop (.openRead "requirements.txt") ::
          (pkgOkTrace ["pandas", "numpy"] ++ [Event.out (.pkgMissing "tensorflow")]),
         false) :=
  (claim_C5_requirements fsNoTF manifestNoTF rfl).2 ["pandas", "numpy"] "tensorflow"
    ["scikit-learn", "matplotlib", "seaborn", "faker", "jupyter"] rfl
    (by decide) (by decide)

/-- C6 counterexample: the claim speaks of five fixed gitignore pattern
strings, but the checker's fixed pattern table has six entries. -/
theorem claim_C6_counterexample :
    essential_patterns.length = 6 ∧ ¬ essential_patterns.length = 5 := by
  decide

/-- C6 (amended): the ignore-pattern checker returns true iff `.gitignore` is
readable; on a readable file it returns true regardless of how many of the six
fixed pattern strings are present, each pattern yielding a success or warning
line by case-sensitive substring containment, and it returns false exactly
when the read fails. -/
theorem claim_C6_gitignore (fs : FileSystem) :
    ((validate_gitignore fs).2 = true ↔ (fs.readText ".gitignore").isSome = true)
  ∧ (∀ g, fs.readText ".gitignore" = some g →
      validate_gitignore fs
        = (Event.out .header5 :: Event.fsop (.openRead ".gitignore") ::
            gitignorePatTrace g essential_patterns, true))
  ∧ (fs.readText ".gitignore" = none →
      validate_gitignore fs
        = ([Event.out .header5, Event.fsop (.openRead ".gitignore"),
            Event.out .gitignoreReadError], false)) := by
  refine ⟨?_, ?_, ?_⟩
  · rw [validate_gitignore_snd]
  · intro g hg
    simp [validate_gitignore, hg, gitignoreLoop_eq_map]
  · intro hg
    simp [validate_gitignore, hg]

/-- C6 witness: with a readable `.gitignore` whose text contains none of the
six patterns, the checker still returns true, emitting one line per pattern. -/
theorem claim_C6_gitignore_witness :
    validate_gitignore fsGood
      = (Event.out .header5 :: Event.fsop (.openRead ".gitignore") ::
          gitignorePatTrace goodText essential_patterns, true) :=
  (claim_C6_gitignore fsGood).2.1 goodText rfl

/-- C7: for every filesystem state the run terminates with an exit code that
is exactly 0 or exactly 1; in the embedding every error path of every checker
is a recovered value, and `main` is a total function of the filesystem. -/
theorem claim_C7_always_exits_0_or_1 (fs : FileSystem) :
    (main fs).2 = 0 ∨ (main fs).2 = 1 := by
  rw [main_snd]
  split
  · exact Or.inl rfl
  · exact Or.inr rfl

/-- C8: the program only reads from the filesystem: every filesystem
operation in the full event trace of `main` is a read-class operation
(`isdir`/`isfile`/open-for-read), never a write. -/
theorem claim_C8_read_only (fs : FileSystem) :
    readOnly (main fs).1 = true :=
  main_readOnly fs

/-- C9: plain substring containment makes the requirements checker accept a
manifest where `numpy` occurs only inside the longer token `numpydoc` (no line
of the manifest is a standalone `numpy` entry) and where the other seven
package names occur only inside a comment line. -/
theorem claim_C9_substring_containment :
    strContains "numpy" (pyLower manifestNumpydoc) = true
  ∧ manifestLines.all (fun l => !(l == "numpy")) = true
  ∧ strContains "pandas" (pyLower manifestNumpydoc) = true
  ∧ (validate_requirements fsNumpydoc).2 = true := by
  decide

/-- C10 counterexample: a notebook parsing as `{"cells": "ab"}` has a
top-level value that is not an object with a list-valued `"cells"` entry, yet
the notebook checker returns true (Python's `len` accepts the string), so the
claimed failure mode is wrong at this state. -/
theorem claim_C10_counterexample :
    objWithListCellsClaim (JValue.obj [("cells", JValue.str "ab")]) = false
  ∧ fsCellsStr.readJson "notebooks/01_data_ingestion.ipynb"
      = ReadResult.parsed (JValue.obj [("cells", JValue.str "ab")])
  ∧ (validate_notebooks fsCellsStr).2 = true :=
  ⟨by decide, rfl, by decide⟩

/-- C10 (amended): the notebook checker returns false, rather than raising,
for every unnamed failure mode: a notebook whose open/read raises, one whose
content fails to parse, and one whose parsed value does not support the
`'cells'` lookup followed by a length computation (any non-object, and any
object whose `"cells"` value is null, boolean or numeric). -/
theorem claim_C10_notebook_failure_modes (fs : FileSystem) (nb : String)
    (hmem : nb ∈ notebooks) :
    (fs.readJson nb = .ioError → (validate_notebooks fs).2 = false)
  ∧ (fs.readJson nb = .parseError → (validate_notebooks fs).2 = false)
  ∧ (∀ v, fs.readJson nb = .parsed v → cellsLenOk v = false →
      (validate_notebooks fs).2 = false) := by
  refine ⟨?_, ?_, ?_⟩
  · intro h
    exact notebookOk_false_all fs nb hmem (by simp [notebookOk, h])
  · intro h
    exact notebookOk_false_all fs nb hmem (by simp [notebookOk, h])
  · intro v h hv
    exact notebookOk_false_all fs nb hmem (by simp [notebookOk, h, hv])

/-- C10 witness: when the first notebook cannot be opened, the notebook
checker returns false instead of crashing. -/
theorem claim_C10_notebook_failure_modes_witness :
    (validate_notebooks fsNbIoErr).2 = false :=
  (claim_C10_notebook_failure_modes fsNbIoErr "notebooks/01_data_ingestion.ipynb"
    (by decide)).1 rfl

end ValidateProject
